import Mathlib

/-!
Verification of the `roy` API simulator core (a protocol-accurate mock of an
AI-completion HTTP service) against its natural-language specification.

The development shallowly embeds the simulation engine:
  * the quota tracker (`src/server_state.rs`: `increment_request_count`,
    `add_token_usage`, `get_rate_limit_headers`),
  * the fault injector (`should_return_error`),
  * the length resolver and filler-content generator (`get_response_length`,
    `generate_lorem_content`),
  * the tokenizer wrapper (`count_tokens`, modelling the external BPE),
  * both endpoint pipelines (`src/chat_completions.rs::chat_completions` and
    `src/responses.rs::responses`) including the SSE event sequences of the
    two streaming protocols.

Timestamps are whole seconds (Nat).  Randomness and wall-clock reads are
passed in as explicit oracle arguments.  The two rate-limit check methods
`check_request_limit_exceeded` / `check_token_limit_exceeded` are invoked by
the endpoints but have no definition in the sources; the pipelines therefore
take their per-request outcomes as explicit Boolean inputs.
-/

namespace Roy

/-- Configuration arguments (`src/lib.rs`, `struct Args`): the fields read by
the simulation core. -/
structure Args where
  response_length : Option String
  error_code : Option Nat
  error_rate : Option Nat
  rpm : Nat
  tpm : Nat
  deriving DecidableEq, Repr

/-- Server state (`src/server_state.rs`, `struct ServerState`): the two
timestamp queues guarded by mutexes in the source.  The front of each
`VecDeque` is the head of the list. -/
structure ServerState where
  args : Args
  request_timestamps : List Nat
  token_usage_timestamps : List (Nat × Nat)
  deriving DecidableEq, Repr

/-- The front-pruning loop shared by the request-axis methods:
`while front < cutoff, pop_front, else break`. -/
def pruneOld (cutoff : Nat) : List Nat → List Nat
  | [] => []
  | t :: rest => if t < cutoff then pruneOld cutoff rest else t :: rest

/-- The front-pruning loop of the token axis, over `(timestamp, tokens)`
pairs. -/
def pruneTok (cutoff : Nat) : List (Nat × Nat) → List (Nat × Nat)
  | [] => []
  | e :: rest => if e.1 < cutoff then pruneTok cutoff rest else e :: rest

/-- `ServerState::increment_request_count`: prune entries older than
60 seconds before `now` from the front, then push `now` at the back. -/
def incrementRequestCount (now : Nat) (st : ServerState) : ServerState :=
  { st with request_timestamps :=
      pruneOld (now - 60) st.request_timestamps ++ [now] }

/-- `ServerState::add_token_usage`: prune old entries, then push
`(now, tokens)` at the back. -/
def addTokenUsage (now tokens : Nat) (st : ServerState) : ServerState :=
  { st with token_usage_timestamps :=
      pruneTok (now - 60) st.token_usage_timestamps ++ [(now, tokens)] }

/-- A rate-limit header value: either a plain number (rendered by
`to_string` in the source) or a duration in whole seconds (rendered by
`humantime::format_duration`).  Both renderings are injective, so the header
map is modelled as carrying the underlying data. -/
inductive HVal where
  | num (n : Nat)
  | dur (secs : Nat)
  deriving DecidableEq, Repr

/-- The six rate-limit header names, in insertion order. -/
def rlHeaderNames : List String :=
  ["x-ratelimit-limit-requests", "x-ratelimit-remaining-requests",
   "x-ratelimit-reset-requests", "x-ratelimit-limit-tokens",
   "x-ratelimit-remaining-tokens", "x-ratelimit-reset-tokens"]

/-- `ServerState::get_rate_limit_headers`: prunes both queues, then reports
limit, remaining (saturating subtraction) and time-to-reset for each axis.
Returns the headers together with the mutated state. -/
def getRateLimitHeaders (now : Nat) (st : ServerState) :
    List (String × HVal) × ServerState :=
  let ts := pruneOld (now - 60) st.request_timestamps
  let requestCount := ts.length
  let limit := st.args.rpm
  let remaining := limit - requestCount
  let resetDur : Nat :=
    if requestCount < limit then 0
    else match ts.head? with
      | some oldest => oldest + 60 - now
      | none => 0
  let tok := pruneTok (now - 60) st.token_usage_timestamps
  let currentTokenUsage := (tok.map Prod.snd).sum
  let tokenLimit := st.args.tpm
  let remainingTokens := tokenLimit - currentTokenUsage
  let tokenResetDur : Nat :=
    if currentTokenUsage < tokenLimit then 0
    else match tok.head? with
      | some oldest => oldest.1 + 60 - now
      | none => 0
  ([("x-ratelimit-limit-requests", HVal.num limit),
    ("x-ratelimit-remaining-requests", HVal.num remaining),
    ("x-ratelimit-reset-requests", HVal.dur resetDur),
    ("x-ratelimit-limit-tokens", HVal.num tokenLimit),
    ("x-ratelimit-remaining-tokens", HVal.num remainingTokens),
    ("x-ratelimit-reset-tokens", HVal.dur tokenResetDur)],
   { st with request_timestamps := ts, token_usage_timestamps := tok })

/-- `ServerState::should_return_error`: when both an error code and an error
rate are configured, return the code when the uniform draw from `[0,100)` is
below the rate. -/
def shouldReturnError (a : Args) (draw : Nat) : Option Nat :=
  match a.error_code, a.error_rate with
  | some code, some rate => if draw < rate then some code else none
  | _, _ => none

/-- Model of Rust `usize::from_str`: optional leading `+`, at least one
digit, all digits, and the value must fit in 64 bits. -/
def parseUsize (s : String) : Option Nat :=
  let cs := s.toList
  let ds := if cs.head? = some '+' then cs.tail else cs
  if ds ≠ [] ∧ ds.all Char.isDigit then
    let v := ds.foldl (fun a c => a * 10 + (c.toNat - 48)) 0
    if v < 2 ^ 64 then some v else none
  else none

/-- `length_str.find(':')` followed by the two slices: the characters before
the first colon and the characters after it. -/
def findColonSplit (s : String) : Option (String × String) :=
  let cs := s.toList
  match cs.dropWhile (fun c => ¬ c = ':') with
  | [] => none
  | _ :: rest => some ((cs.takeWhile (fun c => ¬ c = ':')).asString, rest.asString)

/-- `ServerState::get_response_length`.  `rng lo hi` is the oracle for
`gen_range(lo..=hi)`; `gen_range` panics when the range is empty, modelled by
`none`. -/
def getResponseLength (a : Args) (rng : Nat → Nat → Nat) : Option Nat :=
  match a.response_length with
  | none => some 0
  | some s =>
    match findColonSplit s with
    | some (pre, post) =>
      let mn := (parseUsize pre).getD 0
      let mx := (parseUsize post).getD 100
      if mn ≤ mx then some (rng mn mx) else none
    | none => some ((parseUsize s).getD 0)

/-- The canonical opening of the lorem-ipsum corpus (ASCII). -/
def loremWords : List String :=
  ["Lorem", "ipsum", "dolor", "sit", "amet,", "consectetur", "adipiscing",
   "elit,", "sed", "do", "eiusmod", "tempor", "incididunt", "ut", "labore",
   "et", "dolore", "magna", "aliqua."]

/-- Modelled from the external `lipsum` crate: `lipsum(n)` yields `n` words
starting with the canonical "Lorem ipsum ..." opening, joined by single
spaces; the crate's Markov-chain continuation is replaced by cycling the
canonical corpus.  `lipsum(0)` is the empty string, as in the crate. -/
def lipsumModel (n : Nat) : String :=
  String.intercalate " "
    ((List.range n).map (fun i => loremWords.getD (i % loremWords.length) ""))

/-- Rust `String::truncate(n)`: keep the first `n` bytes.  The corpus is
ASCII, so bytes coincide with characters. -/
def strTruncate (n : Nat) (s : String) : String :=
  (s.toList.take n).asString

/-- `ServerState::generate_lorem_content`: empty for length 0, otherwise
`length / 5` corpus words truncated to `length` bytes. -/
def generateLoremContent (length : Nat) : String :=
  if length = 0 then ""
  else strTruncate length (lipsumModel (length / 5))

/-! ### Fixed-window quota model (from the specification)

The claim under scrutiny describes the quota tracker as a fixed-window
algorithm; this model follows the specification's words so that it can be
compared with the source embedding above. -/

/-- Modelled from the spec: a fixed quota window
`{count, reset_at}` (spec, section 3, QuotaWindow). -/
structure FixedWindow where
  count : Nat
  resetAt : Nat
  deriving DecidableEq, Repr

/-- Modelled from the spec: `check_and_count` of the fixed-window algorithm
(spec, section 4.1).  On every call, compare `now` to `reset_at`; if expired,
reset the count to 0 and set `reset_at` to `now + dur`; then test
`count + magnitude > limit`: if exceeded report not-allowed without mutating
the count, otherwise add the magnitude. -/
def fixedCheck (dur limit now magnitude : Nat) (w : FixedWindow) :
    Bool × FixedWindow :=
  let w' := if w.resetAt ≤ now then { count := 0, resetAt := now + dur } else w
  if limit < w'.count + magnitude then (false, w')
  else (true, { w' with count := w'.count + magnitude })

/-- Fixed-window state after a trace of unit increments at the given times. -/
def fixedTrace (dur limit : Nat) (times : List Nat) : FixedWindow :=
  times.foldl (fun w t => (fixedCheck dur limit t 1 w).2) { count := 0, resetAt := 0 }

/-- The remaining budget a fixed-window tracker reports at `now` after the
trace: expire-and-reset first, then `limit - count`. -/
def fixedWindowRemaining (dur limit : Nat) (times : List Nat) (now : Nat) : Nat :=
  let w := fixedTrace dur limit times
  let w' := if w.resetAt ≤ now then ({ count := 0, resetAt := now + dur } : FixedWindow) else w
  limit - w'.count

/-- Source-side request-queue contents after the same trace of requests, each
processed by `increment_request_count`. -/
def sourceTrace (times : List Nat) : List Nat :=
  times.foldl (fun ts t => pruneOld (t - 60) ts ++ [t]) []

/-- The remaining request budget the source reports at `now` after the trace
(the `x-ratelimit-remaining-requests` computation of
`get_rate_limit_headers`). -/
def sourceRemaining (limit : Nat) (times : List Nat) (now : Nat) : Nat :=
  limit - (pruneOld (now - 60) (sourceTrace times)).length

/-! ### Tokenizer model

`ServerState::count_tokens` calls the external `tiktoken_rs` `cl100k_base`
byte-pair encoder.  The encoder is modelled with its real structure: a
pre-split of the text into pieces (maximal runs of one character class,
standing in for the crate's regex) followed by greedy byte-pair merging
driven by a vocabulary rank function. -/

/-- Character class used by the pre-split model. -/
def charClass (c : Char) : Nat :=
  if c.isAlpha then 0 else if c.isDigit then 1 else if c = ' ' then 2 else 3

/-- Group a character list into maximal runs of equal class. -/
def groupByClass : List Char → List (List Char)
  | [] => []
  | c :: cs =>
    match groupByClass cs with
    | [] => [[c]]
    | g :: gs =>
      match g with
      | [] => [c] :: gs
      | d :: _ => if charClass c = charClass d then (c :: g) :: gs else [c] :: g :: gs

/-- Modelled from the external `tiktoken_rs` crate: the regex pre-split of
`encode_with_special_tokens`, as maximal runs of one character class.  The
empty text yields no pieces. -/
def splitPieces (s : String) : List String :=
  (groupByClass s.toList).map List.asString

/-- Index and rank of the lowest-ranked adjacent pair, scanning from
position `i`. -/
def bestMergeAux (rank : String → String → Option Nat) :
    Nat → List String → Option (Nat × Nat)
  | _, [] => none
  | _, [_] => none
  | i, a :: b :: rest =>
    let tail := bestMergeAux rank (i + 1) (b :: rest)
    match rank a b, tail with
    | none, t => t
    | some r, none => some (i, r)
    | some r, some (j, s) => if r ≤ s then some (i, r) else some (j, s)

/-- Merge the adjacent pair at index `i`. -/
def mergeAt : Nat → List String → List String
  | 0, a :: b :: rest => (a ++ b) :: rest
  | n + 1, a :: rest => a :: mergeAt n rest
  | _, l => l

/-- Greedy BPE merge loop: repeatedly merge the lowest-ranked adjacent pair
until no adjacent pair is in the vocabulary.  Fuel bounds the iteration
count; each merge shortens the list, so the initial length suffices. -/
def bpeLoop (rank : String → String → Option Nat) :
    Nat → List String → List String
  | 0, parts => parts
  | fuel + 1, parts =>
    match bestMergeAux rank 0 parts with
    | none => parts
    | some (i, _) => bpeLoop rank fuel (mergeAt i parts)

/-- Modelled from the external `tiktoken_rs` crate: number of BPE tokens of
one piece under the vocabulary `rank`. -/
def bpeTokens (rank : String → String → Option Nat) (piece : String) : Nat :=
  let parts := piece.toList.map (fun c => String.mk [c])
  (bpeLoop rank parts.length parts).length

/-- `ServerState::count_tokens` modulo the external encoder: total token
count of a text, the sum over the pre-split pieces. -/
def countTokensModel (rank : String → String → Option Nat) (text : String) : Nat :=
  ((splitPieces text).map (bpeTokens rank)).sum

/-! ### Protocol A: chat-completion streaming (`src/chat_completions.rs`) -/

/-- Rust `str::split_whitespace`: the whitespace-delimited words, with no
empty pieces. -/
def wordsAux : List Char → List Char → List String
  | [], [] => []
  | [], acc => [acc.reverse.asString]
  | c :: cs, acc =>
    if c.isWhitespace then
      if acc = [] then wordsAux cs []
      else acc.reverse.asString :: wordsAux cs []
    else wordsAux cs (c :: acc)

/-- Whitespace-split of a string (Rust `split_whitespace`). -/
def splitWhitespace (s : String) : List String :=
  wordsAux s.toList []

/-- `struct Usage` (`src/chat_completions.rs`). -/
structure Usage where
  prompt_tokens : Nat
  completion_tokens : Nat
  total_tokens : Nat
  deriving DecidableEq, Repr

/-- `struct ChoiceDelta`. -/
structure ChoiceDelta where
  role : Option String
  content : Option String
  deriving DecidableEq, Repr

/-- `struct ChunkChoice`. -/
structure ChunkChoice where
  index : Nat
  delta : ChoiceDelta
  finish_reason : Option String
  deriving DecidableEq, Repr

/-- `struct ChatCompletionChunk`. -/
structure ChatCompletionChunk where
  id : String
  object : String
  created : Nat
  model : String
  choices : List ChunkChoice
  usage : Option Usage
  deriving DecidableEq, Repr

/-- One SSE event of Protocol A: a serialized chunk, or the literal
`[DONE]` sentinel. -/
inductive AEvent where
  | chunk (c : ChatCompletionChunk)
  | done
  deriving DecidableEq, Repr

/-- The Protocol A event sequence built by the streaming branch of
`chat_completions`: one role-only chunk, one chunk per whitespace word
carrying the word plus a trailing space, one final chunk with an empty delta,
finish reason `stop` and the usage record, then the `[DONE]` sentinel. -/
def chatStreamEvents (id : String) (created : Nat) (model : String)
    (content : String) (pt ct total : Nat) : List AEvent :=
  let words := splitWhitespace content
  [AEvent.chunk
    { id := id, object := "chat.completion.chunk", created := created,
      model := model,
      choices := [{ index := 0,
                    delta := { role := some "assistant", content := none },
                    finish_reason := none }],
      usage := none }]
  ++ words.map (fun w => AEvent.chunk
    { id := id, object := "chat.completion.chunk", created := created,
      model := model,
      choices := [{ index := 0,
                    delta := { role := none, content := some (w ++ " ") },
                    finish_reason := none }],
      usage := none })
  ++ [AEvent.chunk
    { id := id, object := "chat.completion.chunk", created := created,
      model := model,
      choices := [{ index := 0,
                    delta := { role := none, content := none },
                    finish_reason := some "stop" }],
      usage := some { prompt_tokens := pt, completion_tokens := ct,
                      total_tokens := total } },
    AEvent.done]

/-- Non-streaming `struct Message` / `struct Choice` content of a chat
completion. -/
structure Choice where
  index : Nat
  role : String
  content : String
  finish_reason : String
  deriving DecidableEq, Repr

/-- `struct ChatCompletionResponse`. -/
structure ChatCompletionResponse where
  id : String
  object : String
  created : Nat
  model : String
  choices : List Choice
  usage : Usage
  deriving DecidableEq, Repr

/-- The fixed JSON error envelope `{error: {message, type, code}}`. -/
structure ErrBody where
  message : String
  etype : String
  code : String
  deriving DecidableEq, Repr

/-- `StatusCode::from_u16(code).unwrap_or(INTERNAL_SERVER_ERROR)`: the `http`
crate accepts three-digit codes, in `[100, 1000)`. -/
def statusFromCode (code : Nat) : Nat :=
  if 100 ≤ code ∧ code < 1000 then code else 500

/-- The decoded inbound chat payload.  `messagesJson` stands for the result
of `serde_json::to_string(messages)` when messages are present. -/
structure ChatPayload where
  messagesJson : Option String
  model : Option String
  stream : Option Bool
  deriving DecidableEq, Repr

/-- A decoded chat-completions HTTP response.  The streaming constructor
carries no headers, matching `Sse::new(stream).into_response()` in the
source, which attaches none. -/
inductive ChatResult where
  | error (status : Nat) (headers : List (String × HVal)) (body : ErrBody)
  | noContent (headers : List (String × HVal))
  | ok (headers : List (String × HVal)) (resp : ChatCompletionResponse)
  | sse (events : List AEvent)
  deriving DecidableEq, Repr

/-- The headers a chat result carries. -/
def ChatResult.headers : ChatResult → List (String × HVal)
  | .error _ h _ => h
  | .noContent h => h
  | .ok h _ => h
  | .sse _ => []

/-- The HTTP status of a chat result. -/
def ChatResult.status : ChatResult → Nat
  | .error s _ _ => s
  | .noContent _ => 204
  | .ok _ _ => 200
  | .sse _ => 200

/-- Whether a chat result is a streaming (SSE) response. -/
def ChatResult.isStream : ChatResult → Bool
  | .sse _ => true
  | _ => false

/-- The error envelope of a chat result, when it is an error. -/
def ChatResult.errBody? : ChatResult → Option ErrBody
  | .error _ _ b => some b
  | _ => none

/-- Envelope of a request-axis rate-limit rejection. -/
def requestQuotaBody : ErrBody :=
  { message := "Too many requests", etype := "rate_limit_error",
    code := "rate_limit_exceeded" }

/-- Envelope of a token-axis rate-limit rejection. -/
def tokenQuotaBody : ErrBody :=
  { message := "You have exceeded your token quota.",
    etype := "rate_limit_error", code := "rate_limit_exceeded" }

/-- Envelope of a simulated fault. -/
def apiErrorBody (code : Nat) : ErrBody :=
  { message := "Simulated error with code " ++ toString code,
    etype := "api_error", code := toString code }

/-- The `chat_completions` handler (`src/chat_completions.rs`).

Oracle inputs: `reqLimited` is the outcome of the
`check_request_limit_exceeded` call (the method has no definition in the
sources), `draw` the fault injector's uniform draw from `[0,100)`, `rng` the
`gen_range` oracle of the length resolver, `tokenize` the fallible tokenizer
(`count_tokens` returns a `Result`), `tokLimited` the outcome of
`check_token_limit_exceeded` as a function of the total it is given, and
`chatId` the random id suffix.  `none` models a panic inside
`gen_range` (empty range). -/
def chatCompletions (st : ServerState) (now : Nat) (payload : ChatPayload)
    (reqLimited : Bool) (draw : Nat) (rng : Nat → Nat → Nat)
    (tokenize : String → Option Nat) (tokLimited : Nat → Bool)
    (chatId : Nat) : Option (ChatResult × ServerState) :=
  if reqLimited then
    let p := getRateLimitHeaders now st
    some (.error 429 p.1 requestQuotaBody, p.2)
  else
    let st := incrementRequestCount now st
    match shouldReturnError st.args draw with
    | some code =>
      let p := getRateLimitHeaders now st
      some (.error (statusFromCode code) p.1 (apiErrorBody code), p.2)
    | none =>
      match getResponseLength st.args rng with
      | none => none
      | some responseLength =>
        if responseLength = 0 then
          let p := getRateLimitHeaders now st
          some (.noContent p.1, p.2)
        else
          let content := generateLoremContent responseLength
          let promptText := payload.messagesJson.getD ""
          let prompt_tokens := (tokenize promptText).getD 0
          let completion_tokens := (tokenize content).getD 0
          let total_tokens := prompt_tokens + completion_tokens
          if tokLimited total_tokens then
            let p := getRateLimitHeaders now st
            some (.error 429 p.1 tokenQuotaBody, p.2)
          else
            let st := addTokenUsage now total_tokens st
            if payload.stream.getD false then
              some (.sse (chatStreamEvents ("chatcmpl-" ++ toString chatId)
                now (payload.model.getD "gpt-3.5-turbo") content
                prompt_tokens completion_tokens total_tokens), st)
            else
              let p := getRateLimitHeaders now st
              some (.ok p.1
                { id := "chatcmpl-" ++ toString chatId,
                  object := "chat.completion", created := now,
                  model := payload.model.getD "gpt-3.5-turbo",
                  choices := [{ index := 0, role := "assistant",
                                content := content,
                                finish_reason := "stop" }],
                  usage := { prompt_tokens := prompt_tokens,
                             completion_tokens := completion_tokens,
                             total_tokens := total_tokens } }, p.2)

/-! ### Protocol B: responses streaming (`src/responses.rs`) -/

/-- `struct ResponseUsage`. -/
structure RUsage where
  input_tokens : Nat
  cached_tokens : Nat
  output_tokens : Nat
  reasoning_tokens : Nat
  total_tokens : Nat
  deriving DecidableEq, Repr

/-- An output item of the responses API (`enum ResponseOutputItem`): a
reasoning placeholder or a message with its output-text parts and status. -/
inductive OutItem where
  | reasoning (id : String)
  | message (id : String) (content : List String) (status : String)
  deriving DecidableEq, Repr

/-- The mutable response snapshot (`struct Response`), restricted to the
fields the stream mutates or the claims observe; the remaining fields are
process constants. -/
structure RespSnapshot where
  id : String
  model : String
  status : String
  output : List OutItem
  usage : Option RUsage
  deriving DecidableEq, Repr

/-- One SSE event of Protocol B.  Only the three `ResponseEvent`-shaped
events (`response.created`, `response.in_progress`, `response.completed`)
embed the response snapshot; the `[DONE]` sentinel carries no sequence
number. -/
inductive BEvent where
  | respEvent (etype : String) (seq : Nat) (response : RespSnapshot)
  | itemAdded (etype : String) (seq : Nat) (output_index : Nat) (item : OutItem)
  | itemDone (etype : String) (seq : Nat) (output_index : Nat) (item : OutItem)
  | partAdded (etype : String) (seq : Nat) (output_index : Nat)
      (item_id : String) (content_index : Nat) (partText : String)
  | textDelta (etype : String) (seq : Nat) (output_index : Nat)
      (item_id : String) (content_index : Nat) (delta : String)
      (obfuscation : String)
  | textDone (etype : String) (seq : Nat) (output_index : Nat)
      (item_id : String) (content_index : Nat) (text : String)
  | partDone (etype : String) (seq : Nat) (output_index : Nat)
      (item_id : String) (content_index : Nat) (partText : String)
  | done
  deriving DecidableEq, Repr

/-- The sequence number an event carries, when it carries one. -/
def BEvent.seqNum? : BEvent → Option Nat
  | .respEvent _ s _ => some s
  | .itemAdded _ s _ _ => some s
  | .itemDone _ s _ _ => some s
  | .partAdded _ s _ _ _ _ => some s
  | .textDelta _ s _ _ _ _ _ => some s
  | .textDone _ s _ _ _ _ => some s
  | .partDone _ s _ _ _ _ => some s
  | .done => none

/-- The usage field of the response snapshot embedded in an event, for the
events that embed one. -/
def BEvent.usageOf : BEvent → Option RUsage
  | .respEvent _ _ r => r.usage
  | _ => none

/-- Fuel-driven chunking into 5-byte pieces (`content.as_bytes().chunks(5)`;
the generated content is ASCII, so bytes coincide with characters). -/
def chunksAux : Nat → List Char → List (List Char)
  | _, [] => []
  | 0, l => [l]
  | fuel + 1, c :: cs => (c :: cs.take 4) :: chunksAux fuel (cs.drop 4)

/-- The 5-byte chunks of a character list. -/
def chunks5 (l : List Char) : List (List Char) :=
  chunksAux l.length l

/-- The Protocol B event sequence built by the streaming branch of
`responses`: the eleven lifecycle events around one text-delta event per
5-byte chunk, all numbered consecutively from 0, then the `[DONE]` sentinel.
`obf` is the oracle for the per-delta random obfuscation strings. -/
def protocolB (respId msgId rsId model : String) (content : String)
    (pt ct total : Nat) (obf : Nat → String) : List BEvent :=
  let snap0 : RespSnapshot :=
    { id := respId, model := model, status := "in_progress", output := [],
      usage := none }
  let chunks := chunks5 content.toList
  let k := chunks.length
  let msgDone : OutItem := .message msgId [content] "completed"
  let snapFinal : RespSnapshot :=
    { id := respId, model := model, status := "completed",
      output := [.reasoning rsId, msgDone],
      usage := some { input_tokens := pt, cached_tokens := 0,
                      output_tokens := ct + 128, reasoning_tokens := 128,
                      total_tokens := total + 128 } }
  [BEvent.respEvent "response.created" 0 snap0,
   BEvent.respEvent "response.in_progress" 1 snap0,
   BEvent.itemAdded "response.output_item.added" 2 0 (.reasoning rsId),
   BEvent.itemDone "response.output_item.done" 3 0 (.reasoning rsId),
   BEvent.itemAdded "response.output_item.added" 4 1
     (.message msgId [] "in_progress"),
   BEvent.partAdded "response.content_part.added" 5 1 msgId 0 ""]
  ++ chunks.enum.map (fun p =>
      BEvent.textDelta "response.output_text.delta" (6 + p.1) 1 msgId 0
        p.2.asString (obf p.1))
  ++ [BEvent.textDone "response.output_text.done" (6 + k) 1 msgId 0 content,
      BEvent.partDone "response.content_part.done" (7 + k) 1 msgId 0 content,
      BEvent.itemDone "response.output_item.done" (8 + k) 1 msgDone,
      BEvent.respEvent "response.completed" (9 + k) snapFinal,
      BEvent.done]

/-- The decoded inbound responses payload. -/
structure RespPayload where
  model : Option String
  input : Option String
  instructions : Option String
  stream : Option Bool
  deriving DecidableEq, Repr

/-- A decoded responses-endpoint HTTP response.  As for the chat endpoint,
the streaming constructor carries no headers: the source computes the header
snapshot before branching but does not attach it to
`Sse::new(stream).into_response()`. -/
inductive RespResult where
  | error (status : Nat) (headers : List (String × HVal)) (body : ErrBody)
  | noContent (headers : List (String × HVal))
  | ok (headers : List (String × HVal)) (resp : RespSnapshot)
  | sse (events : List BEvent)
  deriving DecidableEq, Repr

/-- The headers a responses result carries. -/
def RespResult.headers : RespResult → List (String × HVal)
  | .error _ h _ => h
  | .noContent h => h
  | .ok h _ => h
  | .sse _ => []

/-- The HTTP status of a responses result. -/
def RespResult.status : RespResult → Nat
  | .error s _ _ => s
  | .noContent _ => 204
  | .ok _ _ => 200
  | .sse _ => 200

/-- Whether a responses result is a streaming (SSE) response. -/
def RespResult.isStream : RespResult → Bool
  | .sse _ => true
  | _ => false

/-- The error envelope of a responses result, when it is an error. -/
def RespResult.errBody? : RespResult → Option ErrBody
  | .error _ _ b => some b
  | _ => none

/-- The `responses` handler (`src/responses.rs`).  Oracle inputs as for
`chatCompletions`; `respId`, `msgId` and `rsId` are the generated random
identifiers and `obf` the obfuscation-string oracle of the delta events. -/
def responsesEndpoint (st : ServerState) (now : Nat) (payload : RespPayload)
    (reqLimited : Bool) (draw : Nat) (rng : Nat → Nat → Nat)
    (tokenize : String → Option Nat) (tokLimited : Nat → Bool)
    (respId msgId rsId : String) (obf : Nat → String) :
    Option (RespResult × ServerState) :=
  if reqLimited then
    let p := getRateLimitHeaders now st
    some (.error 429 p.1 requestQuotaBody, p.2)
  else
    let st := incrementRequestCount now st
    match shouldReturnError st.args draw with
    | some code =>
      let p := getRateLimitHeaders now st
      some (.error (statusFromCode code) p.1 (apiErrorBody code), p.2)
    | none =>
      match getResponseLength st.args rng with
      | none => none
      | some responseLength =>
        if responseLength = 0 then
          let p := getRateLimitHeaders now st
          some (.noContent p.1, p.2)
        else
          let content := generateLoremContent responseLength
          let promptText := payload.input.getD ""
          let prompt_tokens := (tokenize promptText).getD 0
          let completion_tokens := (tokenize content).getD 0
          let total_tokens := prompt_tokens + completion_tokens
          if tokLimited total_tokens then
            let p := getRateLimitHeaders now st
            some (.error 429 p.1 tokenQuotaBody, p.2)
          else
            let st := addTokenUsage now total_tokens st
            let p := getRateLimitHeaders now st
            let model := payload.model.getD "gpt-5-2025-08-07"
            if payload.stream.getD false then
              some (.sse (protocolB respId msgId rsId model content
                prompt_tokens completion_tokens total_tokens obf), p.2)
            else
              some (.ok p.1
                { id := respId, model := model, status := "completed",
                  output := [.message msgId [content] "completed"],
                  usage := some { input_tokens := prompt_tokens,
                                  cached_tokens := 0,
                                  output_tokens := completion_tokens,
                                  reasoning_tokens := 0,
                                  total_tokens := total_tokens } }, p.2)

/-! ### Helper lemmas about the pruning loops -/

theorem pruneOld_eq_filter (c : Nat) (l : List Nat) (h : l.Sorted (· ≤ ·)) :
    pruneOld c l = l.filter (fun t => decide (c ≤ t)) := by
  induction l with
  | nil => rfl
  | cons t rest ih =>
    rw [List.sorted_cons] at h
    by_cases hc : t < c
    · have hct : ¬ c ≤ t := by omega
      simp [pruneOld, hc, hct, ih h.2]
    · have hct : c ≤ t := by omega
      have hall : ∀ x ∈ rest, c ≤ x := fun x hx => le_trans hct (h.1 x hx)
      simp only [pruneOld, if_neg hc, List.filter_cons, decide_eq_true hct,
        if_true]
      exact congrArg (t :: ·)
        (List.filter_eq_self.mpr (fun a ha => by simpa using hall a ha)).symm

theorem pruneTok_eq_filter (c : Nat) (l : List (Nat × Nat))
    (h : (l.map Prod.fst).Sorted (· ≤ ·)) :
    pruneTok c l = l.filter (fun e => decide (c ≤ e.1)) := by
  induction l with
  | nil => rfl
  | cons e rest ih =>
    rw [List.map_cons, List.sorted_cons] at h
    by_cases hc : e.1 < c
    · have hct : ¬ c ≤ e.1 := by omega
      simp [pruneTok, hc, hct, ih h.2]
    · have hct : c ≤ e.1 := by omega
      have hall : ∀ x ∈ rest, c ≤ x.1 := fun x hx =>
        le_trans hct (h.1 x.1 (List.mem_map_of_mem Prod.fst hx))
      simp only [pruneTok, if_neg hc, List.filter_cons, decide_eq_true hct,
        if_true]
      exact congrArg (e :: ·)
        (List.filter_eq_self.mpr (fun a ha => by simpa using hall a ha)).symm

theorem pruneTok_idem (c : Nat) (l : List (Nat × Nat)) :
    pruneTok c (pruneTok c l) = pruneTok c l := by
  induction l with
  | nil => rfl
  | cons e rest ih =>
    by_cases hc : e.1 < c
    · simpa [pruneTok, hc] using ih
    · simp [pruneTok, hc]

theorem pruneTok_concat (c : Nat) (l : List (Nat × Nat)) (e : Nat × Nat)
    (h : c ≤ e.1) :
    pruneTok c (l ++ [e]) = pruneTok c l ++ [e] := by
  induction l with
  | nil => simp [pruneTok, Nat.not_lt.mpr h]
  | cons x rest ih =>
    by_cases hc : x.1 < c
    · simpa [pruneTok, hc] using ih
    · simp [pruneTok, hc]

/-! ### Claim C1 — quota windowing algorithm -/

/-- C1, counterexample: the claim says the tracker is fixed-window (on
expiry, reset the count to 0 and restart the window from now).  On the trace
of two requests at times 100 and 150 observed at time 170, a fixed 60-second
window with limit 10 would report 10 remaining requests, but the code
reports 9: the entry at time 150 is still inside the sliding 60-second
window and is not wiped by any bulk reset. -/
theorem C1_counterexample :
    sourceRemaining 10 [100, 150] 170 ≠ fixedWindowRemaining 60 10 [100, 150] 170 := by
  decide

/-- C1 (amended): the quota tracker uses a sliding 60-second window on both
axes: every operation prunes, from the front of the timestamp queue, the
entries older than 60 seconds before now, and counts the survivors; each
entry expires individually 60 seconds after its own timestamp, with no
stored reset boundary and no bulk reset of the count.  Stated for sorted
queues (the queues are always sorted, since entries are pushed at the back
with the current time): pruning equals filtering to the last 60 seconds,
`increment_request_count` appends now to the filtered queue, and the header
snapshot carries the six rate-limit headers computed from the pruned
queues. -/
theorem C1_sliding_window (now : Nat) (st : ServerState)
    (hreq : st.request_timestamps.Sorted (· ≤ ·))
    (htok : (st.token_usage_timestamps.map Prod.fst).Sorted (· ≤ ·)) :
    pruneOld (now - 60) st.request_timestamps
      = st.request_timestamps.filter (fun t => decide (now - 60 ≤ t)) ∧
    pruneTok (now - 60) st.token_usage_timestamps
      = st.token_usage_timestamps.filter (fun e => decide (now - 60 ≤ e.1)) ∧
    incrementRequestCount now st
      = { st with
          request_timestamps := st.request_timestamps.filter
            (fun t => decide (now - 60 ≤ t)) ++ [now] } ∧
    ((getRateLimitHeaders now st).1).map Prod.fst = rlHeaderNames := by
  refine ⟨pruneOld_eq_filter _ _ hreq, pruneTok_eq_filter _ _ htok, ?_, rfl⟩
  unfold incrementRequestCount
  rw [pruneOld_eq_filter _ _ hreq]

/-- C1, witness: the amended theorem at a concrete state observed at time
100. -/
theorem C1_witness :
    pruneOld (100 - 60) [30, 90] = [30, 90].filter (fun t => decide (100 - 60 ≤ t)) ∧
    pruneTok (100 - 60) [(30, 5), (90, 7)]
      = [(30, 5), (90, 7)].filter (fun e => decide (100 - 60 ≤ e.1)) ∧
    incrementRequestCount 100
      { args := { response_length := none, error_code := none,
                  error_rate := none, rpm := 500, tpm := 30000 },
        request_timestamps := [30, 90],
        token_usage_timestamps := [(30, 5), (90, 7)] }
      = { args := { response_length := none, error_code := none,
                    error_rate := none, rpm := 500, tpm := 30000 },
          request_timestamps := [30, 90].filter
            (fun t => decide (100 - 60 ≤ t)) ++ [100],
          token_usage_timestamps := [(30, 5), (90, 7)] } ∧
    ((getRateLimitHeaders 100
      { args := { response_length := none, error_code := none,
                  error_rate := none, rpm := 500, tpm := 30000 },
        request_timestamps := [30, 90],
        token_usage_timestamps := [(30, 5), (90, 7)] }).1).map Prod.fst
      = rlHeaderNames :=
  C1_sliding_window 100
    { args := { response_length := none, error_code := none,
                error_rate := none, rpm := 500, tpm := 30000 },
      request_timestamps := [30, 90],
      token_usage_timestamps := [(30, 5), (90, 7)] }
    (by decide) (by decide)

/-! ### Claim C3 — exact content length -/

/-- C3: the claim states that the generator returns exactly L bytes for
every L > 0 and the empty string for L = 0.  Evaluating the code at the
failing input L = 1: `word_count = 1 / 5 = 0` corpus words produce the empty
filler text, and truncation leaves the empty string — 0 bytes instead of
the required 1.  (At L = 10 the output is exactly 10 bytes, and L = 0 does
return the empty string, so only the exact-length guarantee for small L is
broken.) -/
theorem C3_failing_input :
    generateLoremContent 0 = "" ∧
    generateLoremContent 1 = "" ∧
    (generateLoremContent 1).length = 0 ∧
    (generateLoremContent 10).length = 10 := by
  decide

/-! ### Claim C4 — Protocol A event sequence -/

/-- C4: a Protocol A stream over generated content "a b c" is exactly six
events in order: one role-only chunk, one content-delta chunk per
whitespace-delimited word carrying the word plus a trailing space, one
terminal chunk with an empty delta, finish reason `stop` and the full usage
record, then the `[DONE]` sentinel, after which nothing follows. -/
theorem C4_protocol_a (id : String) (created : Nat) (model : String)
    (pt ct total : Nat) :
    chatStreamEvents id created model "a b c" pt ct total =
      [AEvent.chunk
        { id := id, object := "chat.completion.chunk", created := created,
          model := model,
          choices := [{ index := 0,
                        delta := { role := some "assistant", content := none },
                        finish_reason := none }],
          usage := none },
       AEvent.chunk
        { id := id, object := "chat.completion.chunk", created := created,
          model := model,
          choices := [{ index := 0,
                        delta := { role := none, content := some "a " },
                        finish_reason := none }],
          usage := none },
       AEvent.chunk
        { id := id, object := "chat.completion.chunk", created := created,
          model := model,
          choices := [{ index := 0,
                        delta := { role := none, content := some "b " },
                        finish_reason := none }],
          usage := none },
       AEvent.chunk
        { id := id, object := "chat.completion.chunk", created := created,
          model := model,
          choices := [{ index := 0,
                        delta := { role := none, content := some "c " },
                        finish_reason := none }],
          usage := none },
       AEvent.chunk
        { id := id, object := "chat.completion.chunk", created := created,
          model := model,
          choices := [{ index := 0,
                        delta := { role := none, content := none },
                        finish_reason := some "stop" }],
          usage := some { prompt_tokens := pt, completion_tokens := ct,
                          total_tokens := total } },
       AEvent.done] := by
  rfl

/-! ### Claim C7 — fault injector -/

/-- C7: the fault injector returns the configured status code exactly when
both an error code and an error rate are configured and the uniform draw
from `[0,100)` is strictly below the rate; with rate 100 and a configured
code it always returns the code, and with rate 0 it never returns one. -/
theorem C7_fault_injector (a : Args) (c draw : Nat) (h : draw < 100) :
    (shouldReturnError a draw = some c ↔
      a.error_code = some c ∧ ∃ r, a.error_rate = some r ∧ draw < r) ∧
    (a.error_code = some c → a.error_rate = some 100 →
      shouldReturnError a draw = some c) ∧
    (a.error_rate = some 0 → shouldReturnError a draw = none) := by
  rcases a with ⟨rl, ec, er, rpm, tpm⟩
  cases ec with
  | none => simp [shouldReturnError]
  | some code =>
    cases er with
    | none => simp [shouldReturnError]
    | some rate =>
      refine ⟨?_, ?_, ?_⟩
      · by_cases hd : draw < rate <;>
          simp [shouldReturnError, hd, eq_comm (a := code) (b := c)]
      · intro hc hr
        cases hc
        cases hr
        simp [shouldReturnError, h]
      · intro hr
        cases hr
        simp [shouldReturnError]

/-- C7, witness: with error code 503, rate 100 and draw 42 the injector
returns 503. -/
theorem C7_witness :
    (42 : Nat) < 100 ∧
    shouldReturnError
      { response_length := none, error_code := some 503,
        error_rate := some 100, rpm := 1, tpm := 1 } 42 = some 503 :=
  ⟨by decide, (C7_fault_injector _ 503 42 (by decide)).2.1 rfl rfl⟩

/-! ### Claim C9 — tokenizer determinism -/

/-- C9: the token count is a pure function of the text and the fixed
vocabulary rank function: any two invocations on the same text agree, and
the empty string yields 0 tokens (the pre-split of the empty text has no
pieces). -/
theorem C9_count_tokens_deterministic (rank : String → String → Option Nat) :
    (∀ t1 t2 : String, t1 = t2 →
      countTokensModel rank t1 = countTokensModel rank t2) ∧
    countTokensModel rank "" = 0 :=
  ⟨fun _ _ h => congrArg (countTokensModel rank) h, rfl⟩

/-- C9, witness: the theorem applied to a concrete rank function and the
text "ab". -/
theorem C9_witness :
    ("ab" : String) = "ab" ∧
    countTokensModel (fun _ _ => none) "ab"
      = countTokensModel (fun _ _ => none) "ab" ∧
    countTokensModel (fun _ _ => none) "" = 0 :=
  ⟨rfl, (C9_count_tokens_deterministic (fun _ _ => none)).1 "ab" "ab" rfl,
   (C9_count_tokens_deterministic (fun _ _ => none)).2⟩

/-! ### Claim C5 — Protocol B stream invariants -/

theorem filterMap_some_fun {α β : Type} (f : α → β) (l : List α) :
    l.filterMap (fun a => some (f a)) = l.map f := by
  induction l <;> simp_all [List.filterMap_cons]

theorem filter_map_none {α β : Type} (f : α → β) (p : β → Bool) (l : List α)
    (h : ∀ a, p (f a) = false) : (l.map f).filter p = [] := by
  induction l <;> simp_all

theorem range_ten_add (k : Nat) :
    List.range (10 + k)
      = [0, 1, 2, 3, 4, 5] ++ ((List.range k).map (fun i => 6 + i)
        ++ [6 + k, 7 + k, 8 + k, 9 + k]) := by
  have h1 : 10 + k = 6 + (k + 4) := by omega
  rw [h1, List.range_add (a := 6) (b := k + 4),
      List.range_add (a := k) (b := 4), List.map_append, List.map_map]
  have h2 : List.range 6 = [0, 1, 2, 3, 4, 5] := by decide
  have h3 : (List.range 4).map ((fun x => 6 + x) ∘ fun x => k + x)
      = [6 + k, 7 + k, 8 + k, 9 + k] := by
    have : List.range 4 = [0, 1, 2, 3] := by decide
    rw [this]
    simp only [List.map_cons, List.map_nil, Function.comp_apply,
      List.cons.injEq, and_true]
    omega
  rw [h2, h3]

theorem filterMap_seq_deltas (msgId : String) (obf : Nat → String)
    (chunks : List (List Char)) :
    (chunks.enum.map (fun p =>
        BEvent.textDelta "response.output_text.delta" (6 + p.1) 1 msgId 0
          p.2.asString (obf p.1))).filterMap BEvent.seqNum?
      = (List.range chunks.length).map (fun i => 6 + i) := by
  rw [List.filterMap_map]
  show List.filterMap (fun p => some (6 + p.1)) chunks.enum = _
  rw [filterMap_some_fun (fun p : Nat × List Char => 6 + p.1) chunks.enum,
      ← List.enum_map_fst chunks, List.map_map]
  rfl

/-- C5: in every full Protocol B stream, the sequence numbers carried by the
events are exactly `0, 1, 2, ...` with no gaps or repeats; the
`response.completed` event is the only event whose embedded response
snapshot carries a populated usage field, and that usage carries the fixed
128-token mock reasoning surcharge; and the `[DONE]` sentinel is the last
event and appears nowhere earlier. -/
theorem C5_protocol_b (respId msgId rsId model content : String)
    (pt ct total : Nat) (obf : Nat → String) :
    (protocolB respId msgId rsId model content pt ct total obf).filterMap
        BEvent.seqNum?
      = List.range (10 + (chunks5 content.toList).length) ∧
    (protocolB respId msgId rsId model content pt ct total obf).filter
        (fun e => (BEvent.usageOf e).isSome)
      = [BEvent.respEvent "response.completed"
          (9 + (chunks5 content.toList).length)
          { id := respId, model := model, status := "completed",
            output := [.reasoning rsId, .message msgId [content] "completed"],
            usage := some { input_tokens := pt, cached_tokens := 0,
                            output_tokens := ct + 128,
                            reasoning_tokens := 128,
                            total_tokens := total + 128 } }] ∧
    (protocolB respId msgId rsId model content pt ct total obf).getLast?
      = some BEvent.done ∧
    BEvent.done ∉
      (protocolB respId msgId rsId model content pt ct total obf).dropLast := by
  refine ⟨?_, ?_, ?_, ?_⟩
  · simp only [protocolB]
    rw [List.filterMap_append, List.filterMap_append,
        filterMap_seq_deltas, range_ten_add]
    simp only [List.append_assoc]
    rfl
  · simp only [protocolB]
    rw [List.filter_append, List.filter_append,
        filter_map_none _ _ _ (fun a => rfl)]
    rfl
  · simp only [protocolB]
    rw [List.getLast?_append]
    rfl
  · simp only [protocolB]
    rw [List.dropLast_append_of_ne_nil _ (by simp)]
    intro hmem
    simp only [List.mem_append, List.mem_cons, List.mem_map,
      List.not_mem_nil, List.dropLast] at hmem
    rcases hmem with (h | h) | h <;> simp_all

/-! ### Claim C8 — tokenization failure handled as zero -/

/-- C8: a tokenization failure never crashes the pipeline or propagates to
the client: both endpoints use the tokenizer only through
`.unwrap_or(0)`, so running either endpoint with any fallible tokenizer is
identical to running it with the infallible tokenizer that substitutes 0
for every failure; in particular the always-failing tokenizer behaves
exactly like the constant-zero tokenizer. -/
theorem C8_tokenization_failure (st : ServerState) (now : Nat)
    (pl : ChatPayload) (rp : RespPayload) (reqLimited : Bool) (draw : Nat)
    (rng : Nat → Nat → Nat) (tokenize : String → Option Nat)
    (tokLimited : Nat → Bool) (chatId : Nat) (respId msgId rsId : String)
    (obf : Nat → String) :
    chatCompletions st now pl reqLimited draw rng tokenize tokLimited chatId
      = chatCompletions st now pl reqLimited draw rng
          (fun s => some ((tokenize s).getD 0)) tokLimited chatId ∧
    responsesEndpoint st now rp reqLimited draw rng tokenize tokLimited
        respId msgId rsId obf
      = responsesEndpoint st now rp reqLimited draw rng
          (fun s => some ((tokenize s).getD 0)) tokLimited
          respId msgId rsId obf ∧
    chatCompletions st now pl reqLimited draw rng (fun _ => none)
        tokLimited chatId
      = chatCompletions st now pl reqLimited draw rng (fun _ => some 0)
          tokLimited chatId ∧
    responsesEndpoint st now rp reqLimited draw rng (fun _ => none)
        tokLimited respId msgId rsId obf
      = responsesEndpoint st now rp reqLimited draw rng (fun _ => some 0)
          tokLimited respId msgId rsId obf :=
  ⟨rfl, rfl, rfl, rfl⟩

/-! ### Claim C2 — rate-limit headers on every response -/

/-- C2, counterexample: the claim says every response, including a
streaming response at stream start, carries the six `x-ratelimit-*`
headers.  A concrete streaming chat-completions request (length 10, no
fault, quotas clear, `stream = true`) produces a response that carries no
headers at all: the source returns `Sse::new(stream).into_response()`
without attaching the header snapshot. -/
theorem C2_counterexample :
    (chatCompletions
        { args := { response_length := some "10", error_code := none,
                    error_rate := none, rpm := 500, tpm := 30000 },
          request_timestamps := [], token_usage_timestamps := [] }
        100
        { messagesJson := some "[]", model := none, stream := some true }
        false 0 (fun lo _ => lo) (fun _ => some 1) (fun _ => false)
        7).map (fun q => q.1.headers)
      = some [] ∧
    rlHeaderNames ≠ [] := by
  constructor
  · rfl
  · decide

/-- C2 (amended): every non-streaming response of either endpoint —
success, rate-limit error, simulated fault, and no-content — carries
exactly the six `x-ratelimit-*` headers of the snapshot computed at
emission time; the streaming responses of both endpoints carry no
rate-limit headers. -/
theorem C2_amended (st : ServerState) (now : Nat) (pl : ChatPayload)
    (rp : RespPayload) (reqLimited : Bool) (draw : Nat)
    (rng : Nat → Nat → Nat) (tokenize : String → Option Nat)
    (tokLimited : Nat → Bool) (chatId : Nat) (respId msgId rsId : String)
    (obf : Nat → String) :
    (∀ r st', chatCompletions st now pl reqLimited draw rng tokenize
        tokLimited chatId = some (r, st') →
      r.headers.map Prod.fst
        = if r.isStream = true then [] else rlHeaderNames) ∧
    (∀ r st', responsesEndpoint st now rp reqLimited draw rng tokenize
        tokLimited respId msgId rsId obf = some (r, st') →
      r.headers.map Prod.fst
        = if r.isStream = true then [] else rlHeaderNames) := by
  constructor
  · intro r st' h
    simp only [chatCompletions] at h
    repeat' split at h
    all_goals first
      | (simp only [Option.some.injEq, Prod.mk.injEq] at h
         exact h.1 ▸ rfl)
      | simp at h
  · intro r st' h
    simp only [responsesEndpoint] at h
    repeat' split at h
    all_goals first
      | (simp only [Option.some.injEq, Prod.mk.injEq] at h
         exact h.1 ▸ rfl)
      | simp at h

/-- C2, witness: the amended theorem applied to concrete non-streaming
requests on both endpoints: both carry exactly the six header names. -/
theorem C2_witness :
    (chatCompletions
        { args := { response_length := some "10", error_code := none,
                    error_rate := none, rpm := 500, tpm := 30000 },
          request_timestamps := [], token_usage_timestamps := [] }
        100
        { messagesJson := some "[]", model := none, stream := none }
        false 0 (fun lo _ => lo) (fun _ => some 1) (fun _ => false)
        7).map (fun q => q.1.headers.map Prod.fst)
      = some rlHeaderNames ∧
    (responsesEndpoint
        { args := { response_length := some "10", error_code := none,
                    error_rate := none, rpm := 500, tpm := 30000 },
          request_timestamps := [], token_usage_timestamps := [] }
        100
        { model := none, input := some "Hello", instructions := none,
          stream := none }
        false 0 (fun lo _ => lo) (fun _ => some 1) (fun _ => false)
        "resp_1" "msg_1" "rs_1" (fun _ => "")).map
          (fun q => q.1.headers.map Prod.fst)
      = some rlHeaderNames := by
  constructor
  · have h := (C2_amended
      { args := { response_length := some "10", error_code := none,
                  error_rate := none, rpm := 500, tpm := 30000 },
        request_timestamps := [], token_usage_timestamps := [] }
      100
      { messagesJson := some "[]", model := none, stream := none }
      { model := none, input := some "Hello", instructions := none,
        stream := none }
      false 0 (fun lo _ => lo) (fun _ => some 1) (fun _ => false) 7
      "resp_1" "msg_1" "rs_1" (fun _ => "")).1 _ _ rfl
    exact congrArg some (h.trans rfl)
  · have h := (C2_amended
      { args := { response_length := some "10", error_code := none,
                  error_rate := none, rpm := 500, tpm := 30000 },
        request_timestamps := [], token_usage_timestamps := [] }
      100
      { messagesJson := some "[]", model := none, stream := none }
      { model := none, input := some "Hello", instructions := none,
        stream := none }
      false 0 (fun lo _ => lo) (fun _ => some 1) (fun _ => false) 7
      "resp_1" "msg_1" "rs_1" (fun _ => "")).2 _ _ rfl
    exact congrArg some (h.trans rfl)

/-! ### Claim C6 — token-axis quota rejection and accounting -/

/-- C6: when the token-axis quota check on the request's total token count
reports exceeded, both endpoints return a 429 response carrying the fixed
rate-limit JSON envelope, and the total is NOT added to the token-axis
queue (only the usual pruning of already-expired entries happens, which
leaves the windowed usage unchanged); otherwise the total is appended to
the token-axis queue exactly once. -/
theorem C6_token_quota (st : ServerState) (now : Nat) (pl : ChatPayload)
    (rp : RespPayload) (draw : Nat) (rng : Nat → Nat → Nat)
    (tokenize : String → Option Nat) (tokLimited : Nat → Bool)
    (chatId : Nat) (respId msgId rsId : String) (obf : Nat → String)
    (L : Nat)
    (herr : shouldReturnError st.args draw = none)
    (hlen : getResponseLength st.args rng = some L) (hL : ¬ L = 0) :
    ((tokLimited ((tokenize (pl.messagesJson.getD "")).getD 0
          + (tokenize (generateLoremContent L)).getD 0) = true →
        ∀ r st2, chatCompletions st now pl false draw rng tokenize
            tokLimited chatId = some (r, st2) →
          r.status = 429 ∧ r.errBody? = some tokenQuotaBody ∧
          st2.token_usage_timestamps
            = pruneTok (now - 60) st.token_usage_timestamps) ∧
     (tokLimited ((tokenize (pl.messagesJson.getD "")).getD 0
          + (tokenize (generateLoremContent L)).getD 0) = false →
        ∀ r st2, chatCompletions st now pl false draw rng tokenize
            tokLimited chatId = some (r, st2) →
          st2.token_usage_timestamps
            = pruneTok (now - 60) st.token_usage_timestamps
              ++ [(now, (tokenize (pl.messagesJson.getD "")).getD 0
                    + (tokenize (generateLoremContent L)).getD 0)])) ∧
    ((tokLimited ((tokenize (rp.input.getD "")).getD 0
          + (tokenize (generateLoremContent L)).getD 0) = true →
        ∀ r st2, responsesEndpoint st now rp false draw rng tokenize
            tokLimited respId msgId rsId obf = some (r, st2) →
          r.status = 429 ∧ r.errBody? = some tokenQuotaBody ∧
          st2.token_usage_timestamps
            = pruneTok (now - 60) st.token_usage_timestamps) ∧
     (tokLimited ((tokenize (rp.input.getD "")).getD 0
          + (tokenize (generateLoremContent L)).getD 0) = false →
        ∀ r st2, responsesEndpoint st now rp false draw rng tokenize
            tokLimited respId msgId rsId obf = some (r, st2) →
          st2.token_usage_timestamps
            = pruneTok (now - 60) st.token_usage_timestamps
              ++ [(now, (tokenize (rp.input.getD "")).getD 0
                    + (tokenize (generateLoremContent L)).getD 0)])) := by
  have herr' : shouldReturnError (incrementRequestCount now st).args draw
      = none := herr
  have hlen' : getResponseLength (incrementRequestCount now st).args rng
      = some L := hlen
  refine ⟨⟨?_, ?_⟩, ⟨?_, ?_⟩⟩
  · intro htok r st2 h
    simp only [chatCompletions, Bool.false_eq_true, if_false] at h
    rw [herr'] at h
    simp only [hlen'] at h
    rw [if_neg hL, htok] at h
    simp at h
    obtain ⟨h1, h2⟩ := h
    subst h1
    subst h2
    exact ⟨rfl, rfl, rfl⟩
  · intro htok r st2 h
    simp only [chatCompletions, Bool.false_eq_true, if_false] at h
    rw [herr'] at h
    simp only [hlen'] at h
    rw [if_neg hL, htok] at h
    simp only [Bool.false_eq_true, if_false] at h
    split at h <;>
      (simp only [Option.some.injEq, Prod.mk.injEq] at h
       obtain ⟨h1, h2⟩ := h
       subst h2
       first
        | rfl
        | (change pruneTok (now - 60) (pruneTok (now - 60)
              st.token_usage_timestamps ++ [(now, _)]) = _
           rw [pruneTok_concat _ _ _ (Nat.sub_le now 60), pruneTok_idem]))
  · intro htok r st2 h
    simp only [responsesEndpoint, Bool.false_eq_true, if_false] at h
    rw [herr'] at h
    simp only [hlen'] at h
    rw [if_neg hL, htok] at h
    simp at h
    obtain ⟨h1, h2⟩ := h
    subst h1
    subst h2
    exact ⟨rfl, rfl, rfl⟩
  · intro htok r st2 h
    simp only [responsesEndpoint, Bool.false_eq_true, if_false] at h
    rw [herr'] at h
    simp only [hlen'] at h
    rw [if_neg hL, htok] at h
    simp only [Bool.false_eq_true, if_false] at h
    split at h <;>
      (simp only [Option.some.injEq, Prod.mk.injEq] at h
       obtain ⟨h1, h2⟩ := h
       subst h2
       first
        | rfl
        | (change pruneTok (now - 60) (pruneTok (now - 60)
              st.token_usage_timestamps ++ [(now, _)]) = _
           rw [pruneTok_concat _ _ _ (Nat.sub_le now 60), pruneTok_idem]))

/-- C6, witness: at a concrete state (one live token entry of 5 at time 50,
observed at time 100), an always-exceeded check yields a 429 with the quota
envelope and leaves the token queue unchanged, and on the other endpoint a
never-exceeded check appends the total exactly once. -/
theorem C6_witness :
    (∃ r st2, chatCompletions
        { args := { response_length := some "10", error_code := none,
                    error_rate := none, rpm := 500, tpm := 30000 },
          request_timestamps := [], token_usage_timestamps := [(50, 5)] }
        100 { messagesJson := none, model := none, stream := none }
        false 0 (fun lo _ => lo) (fun _ => some 1) (fun _ => true) 7
        = some (r, st2) ∧
      r.status = 429 ∧ r.errBody? = some tokenQuotaBody ∧
      st2.token_usage_timestamps = [(50, 5)]) ∧
    (∃ r st2, responsesEndpoint
        { args := { response_length := some "10", error_code := none,
                    error_rate := none, rpm := 500, tpm := 30000 },
          request_timestamps := [], token_usage_timestamps := [(50, 5)] }
        100 { model := none, input := some "Hello", instructions := none,
              stream := none }
        false 0 (fun lo _ => lo) (fun _ => some 1) (fun _ => false)
        "resp_1" "msg_1" "rs_1" (fun _ => "")
        = some (r, st2) ∧
      st2.token_usage_timestamps = [(50, 5), (100, 2)]) := by
  constructor
  · refine ⟨_, _, rfl, ?_⟩
    exact (C6_token_quota
      { args := { response_length := some "10", error_code := none,
                  error_rate := none, rpm := 500, tpm := 30000 },
        request_timestamps := [], token_usage_timestamps := [(50, 5)] }
      100 { messagesJson := none, model := none, stream := none }
      { model := none, input := some "Hello", instructions := none,
        stream := none }
      0 (fun lo _ => lo) (fun _ => some 1) (fun _ => true) 7
      "resp_1" "msg_1" "rs_1" (fun _ => "") 10
      rfl rfl (by decide)).1.1 rfl _ _ rfl
  · refine ⟨_, _, rfl, ?_⟩
    exact (C6_token_quota
      { args := { response_length := some "10", error_code := none,
                  error_rate := none, rpm := 500, tpm := 30000 },
        request_timestamps := [], token_usage_timestamps := [(50, 5)] }
      100 { messagesJson := none, model := none, stream := none }
      { model := none, input := some "Hello", instructions := none,
        stream := none }
      0 (fun lo _ => lo) (fun _ => some 1) (fun _ => false) 7
      "resp_1" "msg_1" "rs_1" (fun _ => "") 10
      rfl rfl (by decide)).2.2 rfl _ _ rfl

/-! ### Claim C10 — response-length resolver defaults -/

/-- C10: a configured length string with no colon that does not parse as a
non-negative integer resolves to 0 and the request short-circuits to the
204 no-content response; in a colon-separated range an unparseable minimum
defaults to 0 and an unparseable maximum defaults to 100; with no length
configured the resolver returns 0. -/
theorem C10_length_resolver (a : Args) (rng : Nat → Nat → Nat)
    (s pre post : String) (M m : Nat) (st : ServerState) (now : Nat)
    (pl : ChatPayload) (draw : Nat) (tokenize : String → Option Nat)
    (tokLimited : Nat → Bool) (chatId : Nat) :
    (a.response_length = none → getResponseLength a rng = some 0) ∧
    (a.response_length = some s → findColonSplit s = none →
      parseUsize s = none → getResponseLength a rng = some 0) ∧
    (st.args.response_length = some s → findColonSplit s = none →
      parseUsize s = none → shouldReturnError st.args draw = none →
      ∀ r st2, chatCompletions st now pl false draw rng tokenize tokLimited
          chatId = some (r, st2) → r.status = 204) ∧
    (a.response_length = some s → findColonSplit s = some (pre, post) →
      parseUsize pre = none → parseUsize post = none →
      getResponseLength a rng = some (rng 0 100)) ∧
    (a.response_length = some s → findColonSplit s = some (pre, post) →
      parseUsize pre = none → parseUsize post = some M →
      getResponseLength a rng = some (rng 0 M)) ∧
    (a.response_length = some s → findColonSplit s = some (pre, post) →
      parseUsize pre = some m → parseUsize post = none → m ≤ 100 →
      getResponseLength a rng = some (rng m 100)) := by
  refine ⟨?_, ?_, ?_, ?_, ?_, ?_⟩
  · intro h
    simp [getResponseLength, h]
  · intro h1 h2 h3
    simp [getResponseLength, h1, h2, h3]
  · intro h1 h2 h3 herr r st2 h
    have hlen : getResponseLength (incrementRequestCount now st).args rng
        = some 0 := by
      show getResponseLength st.args rng = some 0
      simp [getResponseLength, h1, h2, h3]
    have herr' : shouldReturnError (incrementRequestCount now st).args draw
        = none := herr
    simp only [chatCompletions, Bool.false_eq_true, if_false] at h
    rw [herr'] at h
    simp only [hlen] at h
    simp at h
    obtain ⟨h4, h5⟩ := h
    subst h4
    rfl
  · intro h1 h2 h3 h4
    simp [getResponseLength, h1, h2, h3, h4]
  · intro h1 h2 h3 h4
    simp [getResponseLength, h1, h2, h3, h4]
  · intro h1 h2 h3 h4 h5
    simp [getResponseLength, h1, h2, h3, h4, h5]

/-- C10, witness: "abc" resolves to 0 and short-circuits a concrete request
to a 204; "x:y" resolves to a draw from [0,100]; "x:25" to a draw from
[0,25]; "7:y" to a draw from [7,100]; and an absent length resolves to 0.
The range oracle used returns the upper bound. -/
theorem C10_witness :
    getResponseLength
      { response_length := none, error_code := none, error_rate := none,
        rpm := 500, tpm := 30000 } (fun _ hi => hi) = some 0 ∧
    getResponseLength
      { response_length := some "abc", error_code := none,
        error_rate := none, rpm := 500, tpm := 30000 }
      (fun _ hi => hi) = some 0 ∧
    (∃ r st2, chatCompletions
        { args := { response_length := some "abc", error_code := none,
                    error_rate := none, rpm := 500, tpm := 30000 },
          request_timestamps := [], token_usage_timestamps := [] }
        100 { messagesJson := none, model := none, stream := none }
        false 0 (fun _ hi => hi) (fun _ => some 1) (fun _ => false) 7
        = some (r, st2) ∧ r.status = 204) ∧
    getResponseLength
      { response_length := some "x:y", error_code := none,
        error_rate := none, rpm := 500, tpm := 30000 }
      (fun _ hi => hi) = some 100 ∧
    getResponseLength
      { response_length := some "x:25", error_code := none,
        error_rate := none, rpm := 500, tpm := 30000 }
      (fun _ hi => hi) = some 25 ∧
    getResponseLength
      { response_length := some "7:y", error_code := none,
        error_rate := none, rpm := 500, tpm := 30000 }
      (fun _ hi => hi) = some 100 := by
  refine ⟨?_, ?_, ?_, ?_, ?_, ?_⟩
  · exact (C10_length_resolver _ (fun _ hi => hi) "" "" "" 0 0
      { args := { response_length := none, error_code := none,
                  error_rate := none, rpm := 500, tpm := 30000 },
        request_timestamps := [], token_usage_timestamps := [] }
      100 { messagesJson := none, model := none, stream := none }
      0 (fun _ => some 1) (fun _ => false) 7).1 rfl
  · exact (C10_length_resolver _ (fun _ hi => hi) "abc" "" "" 0 0
      { args := { response_length := some "abc", error_code := none,
                  error_rate := none, rpm := 500, tpm := 30000 },
        request_timestamps := [], token_usage_timestamps := [] }
      100 { messagesJson := none, model := none, stream := none }
      0 (fun _ => some 1) (fun _ => false) 7).2.1 rfl rfl rfl
  · refine ⟨_, _, rfl, ?_⟩
    exact (C10_length_resolver
      { response_length := some "abc", error_code := none,
        error_rate := none, rpm := 500, tpm := 30000 }
      (fun _ hi => hi) "abc" "" "" 0 0
      { args := { response_length := some "abc", error_code := none,
                  error_rate := none, rpm := 500, tpm := 30000 },
        request_timestamps := [], token_usage_timestamps := [] }
      100 { messagesJson := none, model := none, stream := none }
      0 (fun _ => some 1) (fun _ => false) 7).2.2.1 rfl rfl rfl rfl _ _ rfl
  · exact (C10_length_resolver _ (fun _ hi => hi) "x:y" "x" "y" 0 0
      { args := { response_length := some "x:y", error_code := none,
                  error_rate := none, rpm := 500, tpm := 30000 },
        request_timestamps := [], token_usage_timestamps := [] }
      100 { messagesJson := none, model := none, stream := none }
      0 (fun _ => some 1) (fun _ => false) 7).2.2.2.1 rfl rfl rfl rfl
  · exact (C10_length_resolver _ (fun _ hi => hi) "x:25" "x" "25" 25 0
      { args := { response_length := some "x:25", error_code := none,
                  error_rate := none, rpm := 500, tpm := 30000 },
        request_timestamps := [], token_usage_timestamps := [] }
      100 { messagesJson := none, model := none, stream := none }
      0 (fun _ => some 1) (fun _ => false) 7).2.2.2.2.1 rfl rfl rfl rfl
  · exact (C10_length_resolver _ (fun _ hi => hi) "7:y" "7" "y" 0 7
      { args := { response_length := some "7:y", error_code := none,
                  error_rate := none, rpm := 500, tpm := 30000 },
        request_timestamps := [], token_usage_timestamps := [] }
      100 { messagesJson := none, model := none, stream := none }
      0 (fun _ => some 1) (fun _ => false) 7).2.2.2.2.2 rfl rfl rfl rfl
        (by decide)

end Roy
